import Mathlib

/-!
Verification development for the clawdbot run-orchestrator core.

The definitions below are a shallow embedding of the TypeScript sources:
* `src/unnamed/part_001` — the status-updates module (`StatusUpdateController`,
  `formatElapsedTime`, `formatStatusMessage`, `markResponseComplete`);
* `src/src/auto-reply/reply/status-updates-integration.ts` — `completeStatusUpdate`;
* `src/src/auto-reply/reply/agent-runner.ts` — the steer/enqueue gate,
  `resetSession`, and the final payload assembly of `runReplyAgent`;
* `src/src/telegram/bot/delivery.ts` — `deliverReplies`.

JavaScript strings are modelled as Lean `String`; `Date.now()` timestamps as
`Nat` values passed explicitly; side-effecting callbacks (sendStatus results,
message-id allocation, path resolution helpers from modules outside the
excerpt) as explicit parameters.  Machine numbers in the modelled code are
non-negative integers well below 2^53, so `Nat` is exact.
-/

/-- JS `String.prototype.trimEnd` on the character list: drop trailing
whitespace (the JS whitespace class is approximated by `Char.isWhitespace`;
all inputs in the claims are ASCII, where the two coincide). -/
def trimEndList (l : List Char) : List Char :=
  (l.reverse.dropWhile Char.isWhitespace).reverse

/-- JS `s.trimEnd()`. -/
def trimEnd (s : String) : String :=
  String.mk (trimEndList s.data)

/-- JS `s.padStart(len, c)` for a one-character pad string. -/
def padStart (s : String) (len : Nat) (c : Char) : String :=
  String.mk (List.replicate (len - s.data.length) c ++ s.data)

/-- JS string truthiness: `undefined` and `""` are falsy. -/
def truthyStr (s : Option String) : Bool :=
  match s with
  | none => false
  | some t => !(t = "")

/- ===== status-updates module (src/unnamed/part_001) ===== -/

inductive StatusPhase
  | sending_query
  | receiving_reasoning
  | processing_tools
  | generating_response
  | complete
  deriving DecidableEq, Repr

inductive StatusUpdateMode
  | off
  | edit
  | inline
  deriving DecidableEq, Repr

/-- Type `StatusUpdateConfig`: every field optional (absent = `none`). -/
structure StatusUpdateConfig where
  enabled : Option Bool := none
  mode : Option StatusUpdateMode := none
  updateIntervalMs : Option Nat := none
  showPhases : Option Bool := none
  showElapsedTime : Option Bool := none
  markFinalWithCheckmark : Option Bool := none
  elapsedTimeThresholdMs : Option Nat := none
  deriving DecidableEq, Repr

/-- Type `Required<StatusUpdateConfig>` after merging with `DEFAULT_CONFIG`. -/
structure ResolvedStatusUpdateConfig where
  enabled : Bool
  mode : StatusUpdateMode
  updateIntervalMs : Nat
  showPhases : Bool
  showElapsedTime : Bool
  markFinalWithCheckmark : Bool
  elapsedTimeThresholdMs : Nat
  deriving DecidableEq, Repr

def DEFAULT_CONFIG : ResolvedStatusUpdateConfig :=
  { enabled := false
    mode := .edit
    updateIntervalMs := 5000
    showPhases := true
    showElapsedTime := true
    markFinalWithCheckmark := true
    elapsedTimeThresholdMs := 3000 }

/-- Spread `{ ...DEFAULT_CONFIG, ...config }`: a present field overrides the default. -/
def resolveStatusUpdateConfig (c : StatusUpdateConfig) : ResolvedStatusUpdateConfig :=
  { enabled := c.enabled.getD DEFAULT_CONFIG.enabled
    mode := c.mode.getD DEFAULT_CONFIG.mode
    updateIntervalMs := c.updateIntervalMs.getD DEFAULT_CONFIG.updateIntervalMs
    showPhases := c.showPhases.getD DEFAULT_CONFIG.showPhases
    showElapsedTime := c.showElapsedTime.getD DEFAULT_CONFIG.showElapsedTime
    markFinalWithCheckmark := c.markFinalWithCheckmark.getD DEFAULT_CONFIG.markFinalWithCheckmark
    elapsedTimeThresholdMs := c.elapsedTimeThresholdMs.getD DEFAULT_CONFIG.elapsedTimeThresholdMs }

def PHASE_MESSAGES : StatusPhase → String
  | .sending_query => "Sending query to AI model"
  | .receiving_reasoning => "Processing reasoning data"
  | .processing_tools => "Executing tools"
  | .generating_response => "Generating response"
  | .complete => "Complete"

def PHASE_EMOJI : StatusPhase → String
  | .sending_query => "⏳"
  | .receiving_reasoning => "🧠"
  | .processing_tools => "🔧"
  | .generating_response => "✍️"
  | .complete => "✅"

/-- Source `formatElapsedTime(seconds)`: `M:SS` with the seconds zero-padded. -/
def formatElapsedTime (seconds : Nat) : String :=
  let minutes := seconds / 60
  let remainingSeconds := seconds % 60
  let paddedSeconds := padStart (toString remainingSeconds) 2 '0'
  toString minutes ++ ":" ++ paddedSeconds

/-- Source `formatStatusMessage(phase, elapsedSeconds, config)`. -/
def formatStatusMessage (phase : StatusPhase) (elapsedSeconds : Nat)
    (config : ResolvedStatusUpdateConfig) : String :=
  let parts : List String :=
    (if config.showPhases then [PHASE_EMOJI phase ++ " " ++ PHASE_MESSAGES phase] else [])
      ++
    (if config.showElapsedTime && elapsedSeconds * 1000 ≥ config.elapsedTimeThresholdMs then
      ["(" ++ formatElapsedTime elapsedSeconds ++ ")"]
    else [])
  let joined := String.intercalate " " parts
  if joined = "" then "Processing..." else joined

structure StatusUpdateState where
  phase : StatusPhase
  startedAt : Nat
  statusMessageId : Option String := none
  lastUpdateAt : Nat
  elapsedSeconds : Nat
  isComplete : Bool
  deriving DecidableEq, Repr

/-- The controller's mutable fields.  `updateTimer` models whether the
`setInterval` handle is live; the callbacks' behaviour is supplied per call
through `StatusEnv`. -/
structure StatusUpdateController where
  config : ResolvedStatusUpdateConfig
  state : StatusUpdateState
  updateTimer : Bool := false
  stopped : Bool := false
  editedInPlace : Bool := false
  deriving DecidableEq, Repr

/-- Environment for one callback interaction: whether the channel supports
editing and what `callbacks.sendStatus` returns (`none` = no message id). -/
structure StatusEnv where
  supportsEdit : Bool
  sendRes : Option String := none
  deriving DecidableEq, Repr

/-- The constructor: `new StatusUpdateController(config, callbacks)`. -/
def mkStatusUpdateController (config : StatusUpdateConfig) (now : Nat) :
    StatusUpdateController :=
  { config := resolveStatusUpdateConfig config
    state :=
      { phase := .sending_query
        startedAt := now
        statusMessageId := none
        lastUpdateAt := now
        elapsedSeconds := 0
        isComplete := false } }

namespace StatusUpdateController

def isEnabled (c : StatusUpdateController) : Bool :=
  c.config.enabled && !(c.config.mode = .off)

/-- Method `sendUpdate()`: recompute elapsed time, format the text, invoke
`callbacks.sendStatus` and record the returned message id.  The second
component is the rendered text handed to `sendStatus` (`none` when no render
was emitted). -/
def sendUpdate (c : StatusUpdateController) (env : StatusEnv) (now : Nat) :
    StatusUpdateController × Option String :=
  if c.stopped then (c, none)
  else
    let es := (now - c.state.startedAt) / 1000
    let st := { c.state with elapsedSeconds := es, lastUpdateAt := now }
    let text := formatStatusMessage st.phase es c.config
    let st' :=
      if c.config.mode == .edit && env.supportsEdit && st.statusMessageId.isSome then
        { st with statusMessageId := env.sendRes }
      else
        match env.sendRes with
        | some id => { st with statusMessageId := some id }
        | none => st
    ({ c with state := st' }, some text)

/-- Method `setPhase(phase)`.  Second component: the rendered text, if any. -/
def setPhase (c : StatusUpdateController) (phase : StatusPhase) (env : StatusEnv)
    (now : Nat) : StatusUpdateController × Option String :=
  if !c.isEnabled || c.stopped || c.state.isComplete then (c, none)
  else if phase = c.state.phase then (c, none)
  else
    let c := { c with state := { c.state with phase := phase } }
    if phase = .complete then
      ({ c with state := { c.state with isComplete := true }, updateTimer := false }, none)
    else
      c.sendUpdate env now

/-- Method `complete(finalText)`.  Second component: the returned string (the
best-effort delete of a standalone status message leaves the state and the
return value unchanged and is not tracked here). -/
def complete (c : StatusUpdateController) (finalText : Option String) (now : Nat) :
    StatusUpdateController × Option String :=
  if c.stopped then (c, none)
  else
    let c := { c with
      state := { c.state with isComplete := true }
      updateTimer := false
      stopped := true }
    if !c.isEnabled then (c, finalText)
    else if truthyStr finalText && c.config.markFinalWithCheckmark then
      let t := finalText.getD ""
      let es := (now - c.state.startedAt) / 1000
      let c := { c with state := { c.state with elapsedSeconds := es } }
      (c, some (trimEnd t ++ " _(" ++ formatElapsedTime es ++ ")_"))
    else (c, finalText)

/-- Method `cleanup()`: stop the timer and mark stopped (the best-effort delete of a
leftover status message does not change the state). -/
def cleanup (c : StatusUpdateController) : StatusUpdateController :=
  { c with updateTimer := false, stopped := true }

end StatusUpdateController

/-- JS `s.endsWith(c)` for a one-character suffix: the last character is `c`. -/
def endsWithChar (s : String) (c : Char) : Bool :=
  s.data.reverse.head? == some c

/-- Source `markResponseComplete(text, config)`. -/
def markResponseComplete (text : Option String) (config : StatusUpdateConfig) :
    Option String :=
  match text with
  | none => none
  | some t =>
    if t = "" then some t
    else
      let resolved := resolveStatusUpdateConfig config
      if !resolved.enabled || !resolved.markFinalWithCheckmark then some t
      else if endsWithChar (trimEnd t) '✅' then some t
      else some (trimEnd t ++ " ✅")

/- ===== agent-runner (src/src/auto-reply/reply/agent-runner.ts) ===== -/

/-- The session-record fields `runReplyAgent`/`resetSession` read or write. -/
structure SessionEntry where
  sessionId : String
  sessionFile : Option String := none
  updatedAt : Nat := 0
  systemSent : Bool := false
  abortedLastRun : Bool := false
  deriving DecidableEq, Repr

/-- The in-memory session store `Record<string, SessionEntry>`. -/
def SessionStore := List (String × SessionEntry)
  deriving DecidableEq, Repr

def storeGet (s : SessionStore) (k : String) : Option SessionEntry :=
  (List.find? (fun p => p.1 == k) s).map (·.2)

/-- Assignment `store[k] = v`. -/
def storeSet (s : SessionStore) (k : String) (v : SessionEntry) : SessionStore :=
  (k, v) :: List.filter (fun p => !(p.1 == k)) s

/-- Field `QueueSettings.mode` (the modes evidenced in the excerpt). -/
inductive QueueMode
  | queue
  | steer
  deriving DecidableEq, Repr

/-- How `runReplyAgent` leaves its steer/enqueue gate (lines 176-212):
`steered` and `enqueued` return `undefined` immediately; `proceed` goes on to
run the turn. -/
inductive GateOutcome
  | steered
  | enqueued
  | proceed
  deriving DecidableEq, Repr

structure GateParams where
  shouldSteer : Bool
  shouldFollowup : Bool
  isActive : Bool
  isStreaming : Bool
  queueMode : QueueMode
  /-- Result of `queueEmbeddedPiMessage(sessionId, prompt)`. -/
  steerAccepted : Bool
  sessionKey : Option String
  storePath : Option String
  deriving DecidableEq, Repr

structure GateResult where
  outcome : GateOutcome
  enqueueCalled : Bool
  sessionEntry : Option SessionEntry
  store : Option SessionStore
  /-- Holds `some now` when `updateSessionStoreEntry` persisted `{ updatedAt }`. -/
  persistedUpdatedAt : Option Nat
  deriving DecidableEq, Repr

/-- Lines 176-212 of `runReplyAgent`: steer into the running turn, enqueue a
followup run, or proceed to run the turn now.  `entry`/`store` are
`activeSessionEntry`/`activeSessionStore`. -/
def replyAgentGate (p : GateParams) (entry : Option SessionEntry)
    (store : Option SessionStore) (now : Nat) : GateResult :=
  let bump : Option SessionEntry × Option SessionStore × Option Nat :=
    match entry, store, p.sessionKey with
    | some e, some s, some k =>
      let e' := { e with updatedAt := now }
      (some e', some (storeSet s k e'),
        if p.storePath.isSome then some now else none)
    | e, s, _ => (e, s, none)
  if p.shouldSteer && p.isStreaming && p.steerAccepted && !p.shouldFollowup then
    { outcome := .steered
      enqueueCalled := false
      sessionEntry := bump.1
      store := bump.2.1
      persistedUpdatedAt := bump.2.2 }
  else if p.isActive && (p.shouldFollowup || p.queueMode == .steer) then
    { outcome := .enqueued
      enqueueCalled := true
      sessionEntry := bump.1
      store := bump.2.1
      persistedUpdatedAt := bump.2.2 }
  else
    { outcome := .proceed
      enqueueCalled := false
      sessionEntry := entry
      store := store
      persistedUpdatedAt := none }

/-- The mutable context `resetSession` closes over: the session store, the
active entry, the followup run's target session, and the new-session flag. -/
structure ResetState where
  store : Option SessionStore
  activeSessionEntry : Option SessionEntry
  followupSessionId : String
  followupSessionFile : Option String
  activeIsNewSession : Bool
  deriving DecidableEq, Repr

structure ResetOutcome where
  ret : Bool
  state : ResetState
  /-- Whether `updateSessionStore` was invoked. -/
  persistAttempted : Bool
  /-- Whether the persistence failure was caught and logged. -/
  persistErrorLogged : Bool
  /-- Paths handed to `fs.unlinkSync`, in iteration order of the `Set`. -/
  unlinkAttempted : List String
  deriving DecidableEq, Repr

/-- Source `resetSession({failureLabel, buildLogMessage, cleanupTranscripts})`
(lines 249-302).  Path helpers from `config/sessions.js` are abstract
parameters; `freshId` stands for `crypto.randomUUID()`; `persistOk` is
whether the durable `updateSessionStore` write succeeds; `threadId` is
`sessionCtx.MessageThreadId`. -/
def resetSession
    (sessionKey : Option String) (storePath : Option String)
    (st : ResetState) (cleanupTranscripts : Bool)
    (freshId : String) (now : Nat)
    (resolveAgentIdFromSessionKey : String → Option String)
    (resolveSessionTranscriptPath : String → Option String → Option Nat → String)
    (resolveSessionFilePath : String → SessionEntry → Option String → Option String)
    (threadId : Option Nat) (persistOk : Bool) : ResetOutcome :=
  match sessionKey, st.store, storePath with
  | some key, some store, some _ =>
    let prevEntry := (storeGet store key).orElse fun _ => st.activeSessionEntry
    match prevEntry with
    | none =>
      { ret := false, state := st, persistAttempted := false
        persistErrorLogged := false, unlinkAttempted := [] }
    | some prev =>
      let prevSessionId := if cleanupTranscripts then some prev.sessionId else none
      let agentId := resolveAgentIdFromSessionKey key
      let nextSessionFile := resolveSessionTranscriptPath freshId agentId threadId
      let nextEntry : SessionEntry :=
        { prev with
          sessionId := freshId
          updatedAt := now
          systemSent := false
          abortedLastRun := false
          sessionFile := some nextSessionFile }
      let store' := storeSet store key nextEntry
      let unlinks : List String :=
        match prevSessionId with
        | none => []
        | some pid =>
          let canonical := resolveSessionTranscriptPath pid agentId none
          match resolveSessionFilePath pid prev agentId with
          | some resolved =>
            if resolved = canonical then [resolved] else [resolved, canonical]
          | none => [canonical]
      { ret := true
        state :=
          { store := some store'
            activeSessionEntry := some nextEntry
            followupSessionId := freshId
            followupSessionFile := some nextSessionFile
            activeIsNewSession := true }
        persistAttempted := true
        persistErrorLogged := !persistOk
        unlinkAttempted := unlinks }
  | _, _, _ =>
    { ret := false, state := st, persistAttempted := false
      persistErrorLogged := false, unlinkAttempted := [] }

/- ===== reply payloads and the final assembly in runReplyAgent ===== -/

/-- The `ReplyPayload` fields the embedded code reads. -/
structure ReplyPayload where
  text : Option String := none
  mediaUrl : Option String := none
  mediaUrls : List String := []
  replyToId : Option String := none
  isStatusMessage : Bool := false
  audioAsVoice : Bool := false
  editMessageId : Option String := none
  deriving DecidableEq, Repr

/-- Source `completeStatusUpdate(ctx, finalText)` from
`status-updates-integration.ts`: with no controller the text passes through
unchanged; otherwise it is `controller.complete(finalText)`. -/
def completeStatusUpdate (ctrl : Option StatusUpdateController)
    (finalText : Option String) (now : Nat) :
    Option StatusUpdateController × Option String :=
  match ctrl with
  | none => (none, finalText)
  | some c =>
    let r := c.complete finalText now
    (some r.1, r.2)

/-- Replace the last element of a list. -/
def setLast {α : Type} (f : α → α) : List α → List α
  | [] => []
  | [a] => [f a]
  | a :: b :: rest => a :: setLast f (b :: rest)

/-- Modelled from the spec: `appendUsageLine` lives in
`agent-runner-utils.ts`, which is not part of the excerpt.  Spec §4.5 step
(5) says the router "append[s] a one-line usage/cost summary" to the finished
turn's payload list; embedded as appending the line to the final payload's
text, producing a fresh list (the original returns a new array, so the
result does not alias `replyPayloads`). -/
def appendUsageLine (payloads : List ReplyPayload) (line : String) :
    List ReplyPayload :=
  setLast (fun p => { p with text := some (p.text.getD "" ++ "\n\n" ++ line) }) payloads

/-- Lines 566-606 of `runReplyAgent`: the final payload list handed to
`finalizeWithFollowup`.  `finalPayloads` starts as an alias of
`replyPayloads`; prepending a hint or appending the usage line rebinds it to
a fresh array, while the status-update block writes the `complete()`-marked
text into `replyPayloads` by index — visible in the returned value only while
the two still alias. -/
def finalizeTurnPayloads
    (replyPayloads : List ReplyPayload)
    (verboseEnabled autoCompactionCompleted activeIsNewSession : Bool)
    (compactionCount : Option Nat) (sessionId : String)
    (responseUsageLine : Option String)
    (ctrl : Option StatusUpdateController) (now : Nat) : List ReplyPayload :=
  let compactionHint : List ReplyPayload :=
    if autoCompactionCompleted && verboseEnabled then
      let suffix :=
        match compactionCount with
        | some n => " (count " ++ toString n ++ ")"
        | none => ""
      [{ text := some ("🧹 Auto-compaction complete" ++ suffix ++ ".") }]
    else []
  let sessionHint : List ReplyPayload :=
    if verboseEnabled && activeIsNewSession then
      [{ text := some ("🧭 New session: " ++ sessionId) }]
    else []
  let rebound :=
    (autoCompactionCompleted && verboseEnabled)
      || (verboseEnabled && activeIsNewSession)
      || truthyStr responseUsageLine
  let afterHints := sessionHint ++ compactionHint ++ replyPayloads
  let afterUsage :=
    if truthyStr responseUsageLine then
      appendUsageLine afterHints (responseUsageLine.getD "")
    else afterHints
  let mutatedReplyPayloads :=
    match replyPayloads.getLast? with
    | some lastPayload =>
      if truthyStr lastPayload.text then
        let markedText := (completeStatusUpdate ctrl lastPayload.text now).2
        if truthyStr markedText then
          setLast (fun p => { p with text := markedText }) replyPayloads
        else replyPayloads
      else replyPayloads
    | none => replyPayloads
  if rebound then afterUsage else mutatedReplyPayloads

/- ===== telegram delivery (src/src/telegram/bot/delivery.ts) ===== -/

inductive ReplyToMode
  | off
  | first
  | all
  deriving DecidableEq, Repr

/-- One observable outbound action of `deliverReplies`. -/
inductive TgSend
  /-- Send via `sendMessageTelegram`/`sendTelegramText`: body, reply-to target,
  whether it was sent through the status-message path. -/
  | text (body : String) (replyTo : Option Nat) (isStatus : Bool)
  /-- Edit via `editMessageTelegram` of a previous status message. -/
  | editStatus (body : String) (messageId : Nat)
  /-- One media item: url, caption, reply-to target. -/
  | media (url : String) (caption : Option String) (replyTo : Option Nat)
  /-- audioAsVoice payload without text/media: silently skipped. -/
  | skippedVoiceOnly
  /-- Log `runtime.error("reply missing text/media")`. -/
  | errorMissingContent
  deriving DecidableEq, Repr

/-- What `getLastSentMessage` returns for the chat. -/
structure LastSentInfo where
  messageId : Nat
  timestamp : Nat
  isStatus : Bool
  deriving DecidableEq, Repr

/-- External collaborators of `deliverReplies`, as pure functions:
`resolveTelegramReplyId`, the markdown chunker, `splitTelegramCaption`, the
threading mode and the (constant within the call) clock. -/
structure TgDeliveryEnv where
  mode : ReplyToMode
  resolveReplyId : Option String → Option Nat
  chunkText : String → List String
  splitCaption : Option String → Option String × Option String
  now : Nat

/-- Loop-carried state: the `hasReplied` flag, the sent-message cache entry,
and a fresh-id allocator standing for Telegram's returned message ids. -/
structure TgDeliveryState where
  hasReplied : Bool := false
  lastSent : Option LastSentInfo := none
  nextId : Nat := 1
  deriving DecidableEq, Repr

/-- The media loop (lines 153-249): one `media` send per item, caption only
on the first, the deferred over-long-caption follow-up text sent right after
the first item.  Returns the updated `hasReplied` and the emitted sends. -/
def deliverMediaList (env : TgDeliveryEnv) (replyToId : Option Nat)
    (replyText : Option String) :
    List String → Bool → Bool → Bool × List TgSend
  | [], _, hasReplied => (hasReplied, [])
  | url :: rest, first, hasReplied =>
    let cap := env.splitCaption (if first then replyText else none)
    let rt :=
      if replyToId.isSome && (env.mode == .all || !hasReplied) then replyToId else none
    let hr1 := if replyToId.isSome && !hasReplied then true else hasReplied
    let followupStep : Bool × List TgSend :=
      if first && truthyStr cap.2 then
        (env.chunkText (cap.2.getD "")).foldl
          (fun acc ch =>
            let rtf :=
              if replyToId.isSome && (env.mode == .all || !acc.1) then replyToId else none
            let hr := if replyToId.isSome && !acc.1 then true else acc.1
            (hr, acc.2 ++ [TgSend.text ch rtf false]))
          (hr1, [])
      else (hr1, [])
    let restStep := deliverMediaList env replyToId replyText rest false followupStep.1
    (restStep.1, TgSend.media url cap.1 rt :: (followupStep.2 ++ restStep.2))

/-- The body of the `for (const reply of replies)` loop (lines 69-250) for
one payload. -/
def deliverOne (env : TgDeliveryEnv) (st : TgDeliveryState) (reply : ReplyPayload) :
    TgDeliveryState × List TgSend :=
  let hasMedia := truthyStr reply.mediaUrl || !reply.mediaUrls.isEmpty
  if !truthyStr reply.text && !hasMedia then
    if reply.audioAsVoice then (st, [.skippedVoiceOnly])
    else (st, [.errorMissingContent])
  else
    let replyToId := if env.mode == .off then none else env.resolveReplyId reply.replyToId
    let mediaList :=
      if !reply.mediaUrls.isEmpty then reply.mediaUrls
      else if truthyStr reply.mediaUrl then [reply.mediaUrl.getD ""] else []
    if mediaList.isEmpty then
      let shouldEditLast :=
        match st.lastSent with
        | some ls => ls.isStatus && !(ls.messageId == 0) && env.now - ls.timestamp < 120000
        | none => false
      if shouldEditLast && truthyStr reply.text then
        -- edit the previous status message in place (modelled as succeeding)
        let editId := (st.lastSent.map (·.messageId)).getD 0
        let rec' : LastSentInfo := ⟨editId, env.now, reply.isStatusMessage⟩
        ({ st with lastSent := some rec' }, [.editStatus (reply.text.getD "") editId])
      else if reply.isStatusMessage && truthyStr reply.text then
        -- fresh status message; `sendMessageTelegram` is not passed a reply target
        let id := st.nextId
        let rec' : LastSentInfo := ⟨id, env.now, reply.isStatusMessage⟩
        ({ st with nextId := id + 1, lastSent := some rec' },
          [.text (reply.text.getD "") none true])
      else
        let chunks := env.chunkText (reply.text.getD "")
        let folded :=
          chunks.foldl
            (fun (acc : Bool × Option Nat × Nat × List TgSend) ch =>
              let rt :=
                if replyToId.isSome && (env.mode == .all || !acc.1) then replyToId else none
              let hr := if replyToId.isSome && !acc.1 then true else acc.1
              (hr, some acc.2.2.1, acc.2.2.1 + 1, acc.2.2.2 ++ [TgSend.text ch rt false]))
            (st.hasReplied, none, st.nextId, [])
        let lastSent' :=
          match folded.2.1 with
          | some id => some (⟨id, env.now, reply.isStatusMessage⟩ : LastSentInfo)
          | none => st.lastSent
        ({ st with hasReplied := folded.1, nextId := folded.2.2.1, lastSent := lastSent' },
          folded.2.2.2)
    else
      let mediaStep := deliverMediaList env replyToId reply.text mediaList true st.hasReplied
      ({ st with hasReplied := mediaStep.1 }, mediaStep.2)

/-- Source `deliverReplies`: the whole loop, returning every outbound action in
order. -/
def deliverReplies (env : TgDeliveryEnv) (st : TgDeliveryState) :
    List ReplyPayload → List TgSend
  | [] => []
  | r :: rest =>
    let step := deliverOne env st r
    step.2 ++ deliverReplies env step.1 rest

/- ===== helper lemmas ===== -/

theorem string_ne_empty_iff_data (s : String) : s ≠ "" ↔ s.data ≠ [] := by
  cases s
  simp [String.ext_iff]

theorem append_space_append_ne_empty (a b : String) : a ++ " " ++ b ≠ "" := by
  rw [string_ne_empty_iff_data]
  simp [String.data_append]

theorem paren_append_ne_empty (s : String) : "(" ++ s ++ ")" ≠ "" := by
  rw [string_ne_empty_iff_data]
  simp [String.data_append]

theorem trimEndList_append_checkmark (l : List Char) :
    trimEndList (l ++ [' ', '✅']) = l ++ [' ', '✅'] := by
  unfold trimEndList
  simp [List.dropWhile]

theorem trimEnd_marked (t : String) :
    trimEnd (trimEnd t ++ " ✅") = trimEnd t ++ " ✅" := by
  cases t with
  | mk l =>
    apply String.ext
    simp [trimEnd, String.data_append, trimEndList_append_checkmark]

theorem endsWithChar_marked (t : String) :
    endsWithChar (trimEnd (trimEnd t ++ " ✅")) '✅' = true := by
  rw [trimEnd_marked]
  simp [endsWithChar, trimEnd, String.data_append]

theorem marked_ne_empty (t : String) : trimEnd t ++ " ✅" ≠ "" := by
  rw [string_ne_empty_iff_data]
  simp [String.data_append]

/- ===== claim theorems ===== -/

/-- C6: the rendered status text is the optional phase emoji+label part plus
an optional parenthesized `M:SS` elapsed part, the latter present exactly
when `elapsedSeconds * 1000` has reached `elapsedTimeThresholdMs` (so elapsed
time is never shown before the threshold); with both parts disabled the text
is the literal `"Processing..."`. -/
theorem formatStatusMessage_composition (phase : StatusPhase) (es : Nat)
    (cfg : ResolvedStatusUpdateConfig) :
    formatStatusMessage phase es cfg =
      if cfg.showPhases then
        if cfg.showElapsedTime && es * 1000 ≥ cfg.elapsedTimeThresholdMs then
          PHASE_EMOJI phase ++ " " ++ PHASE_MESSAGES phase ++ " "
            ++ ("(" ++ formatElapsedTime es ++ ")")
        else
          PHASE_EMOJI phase ++ " " ++ PHASE_MESSAGES phase
      else
        if cfg.showElapsedTime && es * 1000 ≥ cfg.elapsedTimeThresholdMs then
          "(" ++ formatElapsedTime es ++ ")"
        else
          "Processing..." := by
  by_cases hp : cfg.showPhases = true <;>
    by_cases he : (cfg.showElapsedTime && decide (es * 1000 ≥ cfg.elapsedTimeThresholdMs)) = true
  · simp only [formatStatusMessage, hp, he, if_true, Bool.false_eq_true, if_false,
      List.singleton_append, List.nil_append, List.append_nil]
    rw [show String.intercalate " " [PHASE_EMOJI phase ++ " " ++ PHASE_MESSAGES phase,
      "(" ++ formatElapsedTime es ++ ")"]
      = PHASE_EMOJI phase ++ " " ++ PHASE_MESSAGES phase ++ " "
        ++ ("(" ++ formatElapsedTime es ++ ")") from rfl]
    rw [if_neg (append_space_append_ne_empty (PHASE_EMOJI phase ++ " " ++ PHASE_MESSAGES phase)
      ("(" ++ formatElapsedTime es ++ ")"))]
  · simp only [formatStatusMessage, hp, he, if_true, Bool.false_eq_true, if_false,
      List.singleton_append, List.nil_append, List.append_nil]
    rw [show String.intercalate " " [PHASE_EMOJI phase ++ " " ++ PHASE_MESSAGES phase]
      = PHASE_EMOJI phase ++ " " ++ PHASE_MESSAGES phase from rfl]
    rw [if_neg (append_space_append_ne_empty (PHASE_EMOJI phase) (PHASE_MESSAGES phase))]
  · simp only [formatStatusMessage, hp, he, if_true, Bool.false_eq_true, if_false,
      List.singleton_append, List.nil_append, List.append_nil]
    rw [show String.intercalate " " ["(" ++ formatElapsedTime es ++ ")"]
      = "(" ++ formatElapsedTime es ++ ")" from rfl]
    rw [if_neg (paren_append_ne_empty (formatElapsedTime es))]
  · simp only [formatStatusMessage, hp, he, if_true, Bool.false_eq_true, if_false,
      List.singleton_append, List.nil_append, List.append_nil]
    rw [show String.intercalate " " ([] : List String) = "" from rfl]
    simp

/-- C10: `markResponseComplete` is idempotent and conservative — `undefined`
and empty inputs pass through unchanged, a disabled config (status updates
off or checkmark marking off) leaves the text unchanged, a text whose
trimmed form already ends in the checkmark is never double-marked, and
applying the function twice equals applying it once. -/
theorem markResponseComplete_conservative (cfg : StatusUpdateConfig) :
    markResponseComplete none cfg = none
    ∧ markResponseComplete (some "") cfg = some ""
    ∧ (∀ t, markResponseComplete (some t) { cfg with enabled := some false } = some t)
    ∧ (∀ t, markResponseComplete (some t) { cfg with markFinalWithCheckmark := some false }
        = some t)
    ∧ (∀ t, endsWithChar (trimEnd t) '✅' = true → markResponseComplete (some t) cfg = some t)
    ∧ (∀ t, markResponseComplete (markResponseComplete (some t) cfg) cfg
        = markResponseComplete (some t) cfg) := by
  refine ⟨rfl, by simp [markResponseComplete], ?_, ?_, ?_, ?_⟩
  · intro t
    by_cases ht : t = "" <;>
      simp [markResponseComplete, resolveStatusUpdateConfig, ht]
  · intro t
    by_cases ht : t = "" <;>
      simp [markResponseComplete, resolveStatusUpdateConfig, ht]
  · intro t hend
    by_cases ht : t = "" <;>
      simp [markResponseComplete, ht, hend]
  · intro t
    by_cases ht : t = ""
    · simp [markResponseComplete, ht]
    by_cases hcfg : (!(resolveStatusUpdateConfig cfg).enabled
        || !(resolveStatusUpdateConfig cfg).markFinalWithCheckmark) = true
    · simp [markResponseComplete, ht, hcfg]
    by_cases hend : endsWithChar (trimEnd t) '✅' = true
    · simp [markResponseComplete, ht, hcfg, hend]
    · simp [markResponseComplete, ht, hcfg, hend, marked_ne_empty, endsWithChar_marked]

/-- C10 witness: the already-marked text `"done ✅"` satisfies the
ends-with-checkmark hypothesis and passes through unchanged, and marking
`"hi"` twice equals marking it once. -/
theorem markResponseComplete_conservative_witness :
    endsWithChar (trimEnd "done ✅") '✅' = true
    ∧ markResponseComplete (some "done ✅") { enabled := some true } = some "done ✅"
    ∧ markResponseComplete (markResponseComplete (some "hi") { enabled := some true })
        { enabled := some true }
      = markResponseComplete (some "hi") { enabled := some true } :=
  ⟨by decide,
    (markResponseComplete_conservative { enabled := some true }).2.2.2.2.1 "done ✅" (by decide),
    (markResponseComplete_conservative { enabled := some true }).2.2.2.2.2 "hi"⟩

/-- C4 counterexample: with status updates enabled, the first
`complete("hi")` returns the suffixed text `"hi _(0:00)_"` but the second
call returns `undefined` (the controller is already `stopped`), so calling
`complete(t)` twice does not yield the same final text both times. -/
theorem complete_twice_counterexample :
    ¬ (((mkStatusUpdateController { enabled := some true } 0).complete (some "hi") 0).2
      = (((mkStatusUpdateController { enabled := some true } 0).complete (some "hi") 0).1.complete
          (some "hi") 0).2) := by
  decide

/-- C4 amended: `complete` is idempotent on the controller state, not on the
returned text — after any `complete(t, n₁)` the controller is `stopped`, and
a repeated `complete(t, n₂)` performs no state change and returns
`undefined`; hence only the first call can return a text and the
elapsed-time suffix is never appended twice. -/
theorem complete_second_call_noop (c : StatusUpdateController) (t : Option String)
    (n₁ n₂ : Nat) :
    (c.complete t n₁).1.stopped = true
    ∧ (c.complete t n₁).1.complete t n₂ = ((c.complete t n₁).1, none) := by
  have h1 : (c.complete t n₁).1.stopped = true := by
    by_cases h : c.stopped = true
    · simp [StatusUpdateController.complete, h]
    · simp only [StatusUpdateController.complete, h, Bool.false_eq_true, if_false]
      split_ifs <;> rfl
  refine ⟨h1, ?_⟩
  generalize hX : (c.complete t n₁).1 = X at h1 ⊢
  simp [StatusUpdateController.complete, h1]

/-- C5: `setPhase` transitions — for every controller a transition to the
current phase performs no render and no state change; once stopped or once
the state is complete every `setPhase` call is ignored; and for an enabled,
live controller whose current phase is not `complete`, transitioning to the
`complete` phase marks the state complete, stops the periodic timer, and
emits no outbound render. -/
theorem setPhase_transitions (c : StatusUpdateController) (q : StatusPhase)
    (env : StatusEnv) (now : Nat)
    (h1 : c.isEnabled = true) (h2 : c.stopped = false)
    (h3 : c.state.isComplete = false) (h4 : ¬ c.state.phase = StatusPhase.complete) :
    (∀ d : StatusUpdateController, d.setPhase d.state.phase env now = (d, none))
    ∧ (∀ d : StatusUpdateController,
        StatusUpdateController.setPhase { d with stopped := true } q env now
          = ({ d with stopped := true }, none))
    ∧ (∀ d : StatusUpdateController,
        StatusUpdateController.setPhase { d with state := { d.state with isComplete := true } }
            q env now
          = ({ d with state := { d.state with isComplete := true } }, none))
    ∧ (c.setPhase .complete env now).2 = none
    ∧ (c.setPhase .complete env now).1.state.isComplete = true
    ∧ (c.setPhase .complete env now).1.updateTimer = false := by
  have h4' : ¬ StatusPhase.complete = c.state.phase := fun h => h4 h.symm
  refine ⟨?_, ?_, ?_, ?_, ?_, ?_⟩
  · intro d
    by_cases hg : (!d.isEnabled || d.stopped || d.state.isComplete) = true <;>
      simp [StatusUpdateController.setPhase, hg]
  · intro d
    simp [StatusUpdateController.setPhase]
  · intro d
    simp [StatusUpdateController.setPhase]
  · simp [StatusUpdateController.setPhase, h1, h2, h3, h4']
  · simp [StatusUpdateController.setPhase, h1, h2, h3, h4']
  · simp [StatusUpdateController.setPhase, h1, h2, h3, h4']

/-- C5 witness: a freshly constructed enabled controller satisfies the
hypotheses, and its transition to `complete` flips the flags without
rendering. -/
theorem setPhase_transitions_witness :
    (mkStatusUpdateController { enabled := some true } 0).isEnabled = true
    ∧ ((mkStatusUpdateController { enabled := some true } 0).setPhase .complete
        ⟨false, none⟩ 0).2 = none
    ∧ ((mkStatusUpdateController { enabled := some true } 0).setPhase .complete
        ⟨false, none⟩ 0).1.state.isComplete = true
    ∧ ((mkStatusUpdateController { enabled := some true } 0).setPhase .complete
        ⟨false, none⟩ 0).1.updateTimer = false :=
  ⟨by decide,
    (setPhase_transitions (mkStatusUpdateController { enabled := some true } 0)
      .processing_tools ⟨false, none⟩ 0 (by decide) (by decide) (by decide)
      (by decide)).2.2.2.1,
    (setPhase_transitions (mkStatusUpdateController { enabled := some true } 0)
      .processing_tools ⟨false, none⟩ 0 (by decide) (by decide) (by decide)
      (by decide)).2.2.2.2.1,
    (setPhase_transitions (mkStatusUpdateController { enabled := some true } 0)
      .processing_tools ⟨false, none⟩ 0 (by decide) (by decide) (by decide)
      (by decide)).2.2.2.2.2⟩

/-- C1: with queue mode `steer`, an active streaming turn whose engine
accepts the mid-flight injection (`queueEmbeddedPiMessage` returns true) and
no followup requested, the gate never calls `enqueueFollowupRun`, bumps the
session record's `updatedAt` to the current time (in memory and, when a
store path exists, in the durable store), and returns `undefined`
(outcome `steered`). -/
theorem replyAgentGate_steer_accepted (p : GateParams) (e : SessionEntry)
    (s : SessionStore) (k : String) (now : Nat)
    (_hmode : p.queueMode = QueueMode.steer)
    (hsteer : p.shouldSteer = true) (hstream : p.isStreaming = true)
    (haccept : p.steerAccepted = true) (hfw : p.shouldFollowup = false)
    (hkey : p.sessionKey = some k) :
    replyAgentGate p (some e) (some s) now =
      { outcome := .steered
        enqueueCalled := false
        sessionEntry := some { e with updatedAt := now }
        store := some (storeSet s k { e with updatedAt := now })
        persistedUpdatedAt := if p.storePath.isSome then some now else none } := by
  simp [replyAgentGate, hsteer, hstream, haccept, hfw, hkey]

/-- C1 witness: a concrete steer-mode gate call with the injection accepted. -/
theorem replyAgentGate_steer_accepted_witness :
    replyAgentGate
        { shouldSteer := true, shouldFollowup := false, isActive := true
          isStreaming := true, queueMode := .steer, steerAccepted := true
          sessionKey := some "tg:1", storePath := some "/tmp/store.json" }
        (some { sessionId := "s0", updatedAt := 5 }) (some []) 42 =
      { outcome := .steered
        enqueueCalled := false
        sessionEntry := some { sessionId := "s0", updatedAt := 42 }
        store := some (storeSet [] "tg:1" { sessionId := "s0", updatedAt := 42 })
        persistedUpdatedAt :=
          if (some "/tmp/store.json" : Option String).isSome then some 42 else none } :=
  replyAgentGate_steer_accepted
    { shouldSteer := true, shouldFollowup := false, isActive := true
      isStreaming := true, queueMode := .steer, steerAccepted := true
      sessionKey := some "tg:1", storePath := some "/tmp/store.json" }
    { sessionId := "s0", updatedAt := 5 } [] "tg:1" 42
    rfl rfl rfl rfl rfl rfl

/-- C2: a role-ordering-conflict reset (`cleanupTranscripts` true) with key,
store and store path available replaces the record with one carrying the
freshly generated id (different from the old one), clears `systemSent` and
`abortedLastRun`, bumps `updatedAt`, retargets the followup run, attempts
deletion of the old transcript at both candidate paths (the
resolved-from-session-store path when it exists and the canonical by-id
path), attempts persistence, logs — but survives — a persistence failure
with the in-memory record still advanced, and returns true. -/
theorem resetSession_role_conflict (key path freshId : String) (store : SessionStore)
    (prev : SessionEntry) (st : ResetState) (now : Nat)
    (rAgent : String → Option String)
    (rTrans : String → Option String → Option Nat → String)
    (rFile : String → SessionEntry → Option String → Option String)
    (tid : Option Nat) (persistOk : Bool)
    (hstore : st.store = some store)
    (hprev : storeGet store key = some prev)
    (hfresh : freshId ≠ prev.sessionId) :
    (resetSession (some key) (some path) st true freshId now rAgent rTrans rFile tid
        persistOk).ret = true
    ∧ (resetSession (some key) (some path) st true freshId now rAgent rTrans rFile tid
        persistOk).state.activeSessionEntry
      = some { prev with
          sessionId := freshId
          updatedAt := now
          systemSent := false
          abortedLastRun := false
          sessionFile := some (rTrans freshId (rAgent key) tid) }
    ∧ freshId ≠ prev.sessionId
    ∧ (resetSession (some key) (some path) st true freshId now rAgent rTrans rFile tid
        persistOk).state.store
      = some (storeSet store key
          { prev with
            sessionId := freshId
            updatedAt := now
            systemSent := false
            abortedLastRun := false
            sessionFile := some (rTrans freshId (rAgent key) tid) })
    ∧ (resetSession (some key) (some path) st true freshId now rAgent rTrans rFile tid
        persistOk).state.followupSessionId = freshId
    ∧ (resetSession (some key) (some path) st true freshId now rAgent rTrans rFile tid
        persistOk).state.activeIsNewSession = true
    ∧ rTrans prev.sessionId (rAgent key) none
        ∈ (resetSession (some key) (some path) st true freshId now rAgent rTrans rFile tid
            persistOk).unlinkAttempted
    ∧ (∀ rp, rFile prev.sessionId prev (rAgent key) = some rp →
        rp ∈ (resetSession (some key) (some path) st true freshId now rAgent rTrans rFile tid
            persistOk).unlinkAttempted)
    ∧ (resetSession (some key) (some path) st true freshId now rAgent rTrans rFile tid
        persistOk).persistAttempted = true
    ∧ (resetSession (some key) (some path) st true freshId now rAgent rTrans rFile tid
        persistOk).persistErrorLogged = !persistOk := by
  have hor : (storeGet store key).orElse (fun _ => st.activeSessionEntry) = some prev := by
    rw [hprev]; rfl
  refine ⟨?_, ?_, hfresh, ?_, ?_, ?_, ?_, ?_, ?_, ?_⟩
  · simp only [resetSession, hstore, hor]
  · simp only [resetSession, hstore, hor]
  · simp only [resetSession, hstore, hor]
  · simp only [resetSession, hstore, hor]
  · simp only [resetSession, hstore, hor]
  · simp only [resetSession, hstore, hor]
    rcases hr : rFile prev.sessionId prev (rAgent key) with _ | rp
    · simp [hr]
    · by_cases heq : rp = rTrans prev.sessionId (rAgent key) none <;> simp [hr, heq]
  · intro rp hr
    simp only [resetSession, hstore, hor]
    by_cases heq : rp = rTrans prev.sessionId (rAgent key) none <;> simp [hr, heq]
  · simp only [resetSession, hstore, hor]
  · simp only [resetSession, hstore, hor]

/-- C2 witness: a concrete role-conflict reset with a failing persistence
write still returns true, advances the in-memory record to the fresh id, and
attempts deletion of both transcript candidates. -/
theorem resetSession_role_conflict_witness :
    (resetSession (some "tg:1") (some "/s.json")
        { store := some [("tg:1",
            { sessionId := "old-id", sessionFile := some "/old.jsonl", updatedAt := 1
              systemSent := true, abortedLastRun := true })]
          activeSessionEntry := none
          followupSessionId := "old-id"
          followupSessionFile := none
          activeIsNewSession := false }
        true "new-id" 7 (fun _ => some "agent")
        (fun sid aid _ => aid.getD "" ++ "/" ++ sid)
        (fun sid _ _ => some ("/resolved/" ++ sid)) none false).ret = true
    ∧ ("agent" ++ "/" ++ "old-id")
        ∈ (resetSession (some "tg:1") (some "/s.json")
            { store := some [("tg:1",
                { sessionId := "old-id", sessionFile := some "/old.jsonl", updatedAt := 1
                  systemSent := true, abortedLastRun := true })]
              activeSessionEntry := none
              followupSessionId := "old-id"
              followupSessionFile := none
              activeIsNewSession := false }
            true "new-id" 7 (fun _ => some "agent")
            (fun sid aid _ => aid.getD "" ++ "/" ++ sid)
            (fun sid _ _ => some ("/resolved/" ++ sid)) none false).unlinkAttempted
    ∧ (resetSession (some "tg:1") (some "/s.json")
        { store := some [("tg:1",
            { sessionId := "old-id", sessionFile := some "/old.jsonl", updatedAt := 1
              systemSent := true, abortedLastRun := true })]
          activeSessionEntry := none
          followupSessionId := "old-id"
          followupSessionFile := none
          activeIsNewSession := false }
        true "new-id" 7 (fun _ => some "agent")
        (fun sid aid _ => aid.getD "" ++ "/" ++ sid)
        (fun sid _ _ => some ("/resolved/" ++ sid)) none false).persistErrorLogged = true := by
  have h := resetSession_role_conflict "tg:1" "/s.json" "new-id"
    [("tg:1",
      { sessionId := "old-id", sessionFile := some "/old.jsonl", updatedAt := 1
        systemSent := true, abortedLastRun := true })]
    { sessionId := "old-id", sessionFile := some "/old.jsonl", updatedAt := 1
      systemSent := true, abortedLastRun := true }
    { store := some [("tg:1",
        { sessionId := "old-id", sessionFile := some "/old.jsonl", updatedAt := 1
          systemSent := true, abortedLastRun := true })]
      activeSessionEntry := none
      followupSessionId := "old-id"
      followupSessionFile := none
      activeIsNewSession := false }
    7 (fun _ => some "agent")
    (fun sid aid _ => aid.getD "" ++ "/" ++ sid)
    (fun sid _ _ => some ("/resolved/" ++ sid)) none false
    rfl (by decide) (by decide)
  exact ⟨h.1, h.2.2.2.2.2.2.1, h.2.2.2.2.2.2.2.2.2⟩

/-- C3: when the session key, the session store, or the store path is
unavailable, `resetSession` returns false and mutates nothing — the session
state is returned unchanged, no persistence is attempted, and no transcript
deletion is attempted. -/
theorem resetSession_noop_when_unavailable (sessionKey storePath : Option String)
    (st : ResetState) (cleanupTranscripts : Bool) (freshId : String) (now : Nat)
    (rAgent : String → Option String)
    (rTrans : String → Option String → Option Nat → String)
    (rFile : String → SessionEntry → Option String → Option String)
    (tid : Option Nat) (persistOk : Bool)
    (h : sessionKey = none ∨ st.store = none ∨ storePath = none) :
    resetSession sessionKey storePath st cleanupTranscripts freshId now rAgent rTrans rFile
        tid persistOk
      = { ret := false, state := st, persistAttempted := false
          persistErrorLogged := false, unlinkAttempted := [] } := by
  unfold resetSession
  split
  · rename_i key store path hk
    exfalso
    rcases h with h | h | h <;> simp_all
  · rfl

/-- C3 witness: with no session key configured the reset is a no-op
returning false. -/
theorem resetSession_noop_when_unavailable_witness :
    resetSession none (some "/s.json")
        { store := some [], activeSessionEntry := none, followupSessionId := "s"
          followupSessionFile := none, activeIsNewSession := false }
        true "new" 0 (fun _ => none) (fun sid _ _ => sid) (fun _ _ _ => none) none true
      = { ret := false
          state :=
            { store := some [], activeSessionEntry := none, followupSessionId := "s"
              followupSessionFile := none, activeIsNewSession := false }
          persistAttempted := false, persistErrorLogged := false, unlinkAttempted := [] } :=
  resetSession_noop_when_unavailable none (some "/s.json")
    { store := some [], activeSessionEntry := none, followupSessionId := "s"
      followupSessionFile := none, activeIsNewSession := false }
    true "new" 0 (fun _ => none) (fun sid _ _ => sid) (fun _ _ _ => none) none true
    (Or.inl rfl)

/-- C7: evaluation at the failing input.  With an enabled status controller,
a last payload `"hi"`, verbose mode on and a new session, the controller's
`complete()`-marked text is `"hi _(0:00)_"` — yet the final list returned by
`runReplyAgent` is `[new-session hint, "hi"]`: the marked text was assigned
into the stale `replyPayloads` array after `finalPayloads` had been rebound
to a fresh array, so the returned last payload is unmarked.  Third conjunct:
with no hint prepended and no usage line, the same input does return the
marked text, confirming the replacement is lost exactly when the hint
rebinding happens. -/
theorem finalizeTurnPayloads_marking_lost_after_hint :
    finalizeTurnPayloads [{ text := some "hi" }] true false true none "s1" none
        (some (mkStatusUpdateController { enabled := some true } 0)) 0
      = [{ text := some "🧭 New session: s1" }, { text := some "hi" }]
    ∧ (completeStatusUpdate (some (mkStatusUpdateController { enabled := some true } 0))
        (some "hi") 0).2 = some "hi _(0:00)_"
    ∧ finalizeTurnPayloads [{ text := some "hi" }] false false false none "s1" none
        (some (mkStatusUpdateController { enabled := some true } 0)) 0
      = [{ text := some "hi _(0:00)_" }] := by
  refine ⟨by decide, by decide, by decide⟩

/-- C8: with three single-chunk text payloads carrying the triggering
message as reply target, threading mode `first` attaches the reply-to target
to exactly the first outbound message and to none of the other two; mode
`off` attaches it to none; mode `all` attaches it to every one. -/
theorem deliverReplies_reply_threading (t1 t2 t3 rid : String) (n now : Nat)
    (resolve : Option String → Option Nat) (chunk : String → List String)
    (split : Option String → Option String × Option String)
    (h1 : ¬ t1 = "") (h2 : ¬ t2 = "") (h3 : ¬ t3 = "")
    (hres : resolve (some rid) = some n)
    (hc1 : chunk t1 = [t1]) (hc2 : chunk t2 = [t2]) (hc3 : chunk t3 = [t3]) :
    deliverReplies
        { mode := .first, resolveReplyId := resolve, chunkText := chunk
          splitCaption := split, now := now } {}
        [{ text := some t1, replyToId := some rid },
          { text := some t2, replyToId := some rid },
          { text := some t3, replyToId := some rid }]
      = [.text t1 (some n) false, .text t2 none false, .text t3 none false]
    ∧ deliverReplies
        { mode := .off, resolveReplyId := resolve, chunkText := chunk
          splitCaption := split, now := now } {}
        [{ text := some t1, replyToId := some rid },
          { text := some t2, replyToId := some rid },
          { text := some t3, replyToId := some rid }]
      = [.text t1 none false, .text t2 none false, .text t3 none false]
    ∧ deliverReplies
        { mode := .all, resolveReplyId := resolve, chunkText := chunk
          splitCaption := split, now := now } {}
        [{ text := some t1, replyToId := some rid },
          { text := some t2, replyToId := some rid },
          { text := some t3, replyToId := some rid }]
      = [.text t1 (some n) false, .text t2 (some n) false, .text t3 (some n) false] := by
  refine ⟨?_, ?_, ?_⟩ <;>
    simp [deliverReplies, deliverOne, truthyStr, h1, h2, h3, hres, hc1, hc2, hc3]

/-- C8 witness: concrete three-payload delivery under each threading mode. -/
theorem deliverReplies_reply_threading_witness :
    deliverReplies
        { mode := .first, resolveReplyId := fun s => if s = some "7" then some 7 else none
          chunkText := fun s => [s], splitCaption := fun s => (s, none), now := 0 } {}
        [{ text := some "a", replyToId := some "7" },
          { text := some "b", replyToId := some "7" },
          { text := some "c", replyToId := some "7" }]
      = [.text "a" (some 7) false, .text "b" none false, .text "c" none false]
    ∧ deliverReplies
        { mode := .off, resolveReplyId := fun s => if s = some "7" then some 7 else none
          chunkText := fun s => [s], splitCaption := fun s => (s, none), now := 0 } {}
        [{ text := some "a", replyToId := some "7" },
          { text := some "b", replyToId := some "7" },
          { text := some "c", replyToId := some "7" }]
      = [.text "a" none false, .text "b" none false, .text "c" none false]
    ∧ deliverReplies
        { mode := .all, resolveReplyId := fun s => if s = some "7" then some 7 else none
          chunkText := fun s => [s], splitCaption := fun s => (s, none), now := 0 } {}
        [{ text := some "a", replyToId := some "7" },
          { text := some "b", replyToId := some "7" },
          { text := some "c", replyToId := some "7" }]
      = [.text "a" (some 7) false, .text "b" (some 7) false, .text "c" (some 7) false] :=
  deliverReplies_reply_threading "a" "b" "c" "7" 7 0
    (fun s => if s = some "7" then some 7 else none) (fun s => [s]) (fun s => (s, none))
    (by decide) (by decide) (by decide) (by simp) rfl rfl rfl

/-- C9: a payload with neither (truthy) text nor media contributes exactly
one log action — a silent skip when it is flagged `audioAsVoice`, a logged
error otherwise — and delivery of the remaining payloads continues from an
unchanged state, so the turn does not fail. -/
theorem deliverReplies_invalid_payload (env : TgDeliveryEnv) (st : TgDeliveryState)
    (r : ReplyPayload) (rest : List ReplyPayload)
    (htext : truthyStr r.text = false)
    (hmedia : truthyStr r.mediaUrl = false)
    (hurls : r.mediaUrls = []) :
    deliverReplies env st (r :: rest)
      = (if r.audioAsVoice then [.skippedVoiceOnly] else [.errorMissingContent])
        ++ deliverReplies env st rest := by
  by_cases hv : r.audioAsVoice = true <;>
    simp [deliverReplies, deliverOne, htext, hmedia, hurls, hv]

/-- C9 witness: a voice-flagged empty payload is skipped silently and the
following payload is still delivered from the same state. -/
theorem deliverReplies_invalid_payload_witness :
    deliverReplies
        { mode := .off, resolveReplyId := fun _ => none, chunkText := fun s => [s]
          splitCaption := fun s => (s, none), now := 0 } {}
        [{ audioAsVoice := true }, { text := some "ok" }]
      = [TgSend.skippedVoiceOnly]
        ++ deliverReplies
            { mode := .off, resolveReplyId := fun _ => none, chunkText := fun s => [s]
              splitCaption := fun s => (s, none), now := 0 } {}
            [{ text := some "ok" }] :=
  deliverReplies_invalid_payload
    { mode := .off, resolveReplyId := fun _ => none, chunkText := fun s => [s]
      splitCaption := fun s => (s, none), now := 0 } {}
    { audioAsVoice := true } [{ text := some "ok" }] rfl rfl rfl
